import Mathlib

/-!
Verification of the token-budget conversation manager of `utils.py`
(`manage_token_limits`, `summarize_messages`, `handle_file_chunks`,
`analyze_chunk_with_llama`).

Modelling conventions:
* A Python message dict `{"role": r, "content": c}` is the structure `Message`.
* `count_tokens` wraps the external `tiktoken` tokenizer; it is modelled as an
  explicit parameter `tok : String → Nat` (the spec's Tokenizer Adapter,
  a fixed deterministic black box).
* The network call made by `summarize_messages` (the Completion Client) is
  modelled by an `Option String` parameter: `some s` is a successful response
  body, `none` is any caught exception (its `except Exception` clause catches
  everything).  `manage_token_limits` receives the whole summarizer as a
  parameter `summ : List Message → Message`, the value `summarize_messages`
  returns to it.  In `analyze_chunk_with_llama`, whose `except` clause is
  narrower, one call's outcome is the three-valued `ClientOutcome`, keeping
  caught and uncaught exceptions apart.
* The module constants `MAX_TOKENS` and `REPLY_TOKENS` are parameters
  `maxTokens replyTokens : Nat` (the spec requires `reply_reserve_tokens <
  max_tokens`, so natural subtraction agrees with Python's `-`).
* The recursion of `manage_token_limits` is not structurally decreasing (this
  is one of the facts proved below), so the model takes explicit fuel and
  returns `none` on fuel exhaustion; every terminating Python run is `some`.
-/

/-- A conversation message `{"role": ..., "content": ...}`. -/
structure Message where
  role : String
  content : String
  deriving DecidableEq, Repr

/-- The sum `sum(count_tokens(turn['content']) for turn in l)` (utils.py line 97). -/
def totalTokens (tok : String → Nat) (l : List Message) : Nat :=
  (l.map (fun m => tok m.content)).sum

/-- Python truthiness of the `new_message` argument: `if new_message:` is
false both for `None` and for the empty string. -/
def truthyMsg : Option String → Bool
  | none => false
  | some s => !(s == "")

/-- The record `{"role": "user", "content": s}` appended for a new message. -/
def userMessage (s : String) : Message := ⟨"user", s⟩

/-- The `while` loop of `manage_token_limits` (utils.py lines 101-103):
`while total_tokens >= MAX_TOKENS - REPLY_TOKENS and len(temp_history) > 1:`
pop the head into `messages_to_summarize` and recompute the total.
Returns `(messages_to_summarize, temp_history)` after the loop. -/
def evictLoop (tok : String → Nat) (ceiling : Nat) :
    List Message → List Message → List Message × List Message
  | acc, [] => (acc, [])
  | acc, h :: t =>
    if ceiling ≤ totalTokens tok (h :: t) ∧ t ≠ [] then
      evictLoop tok ceiling (acc ++ [h]) t
    else
      (acc, h :: t)

/-- Python `str.isspace` on a single character: the characters `str.strip()`
removes.  Python strips all Unicode whitespace, which in CPython is
U+0009-U+000D, U+001C-U+001F, the space, U+0085 (NEL), U+00A0 (NBSP),
U+1680 (OGHAM SPACE MARK), U+2000-U+200A, U+2028 (LINE SEPARATOR),
U+2029 (PARAGRAPH SEPARATOR), U+202F, U+205F and U+3000. -/
def isPySpace (c : Char) : Bool :=
  decide ((0x09 ≤ c.toNat ∧ c.toNat ≤ 0x0d) ∨ c.toNat = 0x20
    ∨ (0x1c ≤ c.toNat ∧ c.toNat ≤ 0x1f)
    ∨ c.toNat = 0x85 ∨ c.toNat = 0xa0 ∨ c.toNat = 0x1680
    ∨ (0x2000 ≤ c.toNat ∧ c.toNat ≤ 0x200a)
    ∨ c.toNat = 0x2028 ∨ c.toNat = 0x2029 ∨ c.toNat = 0x202f
    ∨ c.toNat = 0x205f ∨ c.toNat = 0x3000)

/-- Python `s.strip()`: drop whitespace from both ends. -/
def pyStrip (s : String) : String :=
  String.mk (((s.data.dropWhile isPySpace).reverse.dropWhile isPySpace).reverse)

/-- Model of `summarize_messages` (utils.py lines 61-88).  The prompt it builds is
consumed only by the network call, so only the call's outcome matters here:
on success the response content is stripped and wrapped as
`{"role": "system", "content": "Summary: ..."}`; on any exception the fixed
fallback message is returned (the `except` branch, lines 86-88). -/
def summarize_messages (clientResult : Option String) (_messages : List Message) : Message :=
  match clientResult with
  | some body => ⟨"system", "Summary: " ++ pyStrip body⟩
  | none => ⟨"system", "Summary not available due to an error."⟩

/-- Model of `manage_token_limits` (utils.py lines 90-120), fuel-indexed.

Line-by-line correspondence:
* lines 92-95: `temp0` is `conversation_history + [new user message]` when
  `new_message` is truthy, else a copy of `conversation_history`;
* line 97: `total0`;
* line 99: the outer `if total_tokens >= MAX_TOKENS - REPLY_TOKENS:`;
* lines 100-103: `evictLoop`;
* lines 105-108: if messages were evicted, build the summary message, insert
  it at the front and recompute the total;
* lines 110-111: if still over the ceiling, `return manage_token_limits(temp_history)`
  (an early return: the trailing append of `new_message` is skipped);
* lines 113-114: the `else` branch rebinds `temp_history` to a fresh copy of
  `conversation_history` (dropping the tentative append) but keeps
  `total_tokens` as computed at line 97;
* lines 116-118: on every non-early-return path, if `new_message` is truthy it
  is appended (again) and its token count added (again) — this is the
  double-append / double-count behaviour proved below;
* line 120: return `(temp_history, total_tokens)`. -/
def manage_token_limits (tok : String → Nat) (summ : List Message → Message)
    (maxTokens replyTokens : Nat) :
    Nat → List Message → Option String → Option (List Message × Nat)
  | 0, _, _ => none
  | fuel + 1, conversation_history, new_message =>
    let ceiling := maxTokens - replyTokens
    let newText := new_message.getD ""
    let temp0 :=
      if truthyMsg new_message then conversation_history ++ [userMessage newText]
      else conversation_history
    let total0 := totalTokens tok temp0
    let finish : List Message × Nat → List Message × Nat := fun p =>
      if truthyMsg new_message then (p.1 ++ [userMessage newText], p.2 + tok newText)
      else p
    if ceiling ≤ total0 then
      let ev := evictLoop tok ceiling [] temp0
      if ev.1 ≠ [] then
        let s := summ ev.1
        let temp1 := s :: ev.2
        let total1 := totalTokens tok temp1
        if ceiling ≤ total1 then
          manage_token_limits tok summ maxTokens replyTokens fuel temp1 none
        else
          some (finish (temp1, total1))
      else
        some (finish (temp0, total0))
    else
      some (finish (conversation_history, total0))

/-- A concrete tokenizer used for the closed test inputs (the tokenizer is an
external black box; any fixed `String → Nat` is a legitimate instance). -/
def testTok : String → Nat
  | "M200" => 200
  | "M100" => 100
  | "S600" => 600
  | "C600" => 600
  | "hi" => 1
  | "u" => 1
  | "A60" => 60
  | "B60" => 60
  | "A50" => 50
  | "B50" => 50
  | "C50" => 50
  | "A80" => 80
  | "Summary: ok" => 5
  | "Summary not available due to an error." => 5
  | _ => 0

/-- A summarizer standing for a successful Completion Client response `"ok"`. -/
def okSumm : List Message → Message := fun _ => ⟨"system", "Summary: ok"⟩

/-- A summarizer whose replies themselves cost 600 tokens — a legal Completion
Client behaviour that exhibits the non-terminating recursion. -/
def bigSumm : List Message → Message := fun _ => ⟨"system", "S600"⟩

/-- The chunk-building loop of `handle_file_chunks` (utils.py lines 136-156).
State: `acc` = `content_chunks` so far, `cur` = `current_chunk`,
`cnt` = `current_token_count`.  For each line, if `cnt + tok line` would
exceed `chunkSize`, the current chunk is closed (stripped and appended, even
when it strips to the empty string) and reset before the line is added;
after the last line the final chunk is appended only when it does not strip
to the empty string (`if current_chunk.strip():`). -/
def chunkLoop (tok : String → Nat) (chunkSize : Nat) :
    List String → List String → String → Nat → List String
  | acc, [], cur, _ => if pyStrip cur ≠ "" then acc ++ [pyStrip cur] else acc
  | acc, line :: rest, cur, cnt =>
    if cnt + tok line > chunkSize then
      chunkLoop tok chunkSize (acc ++ [pyStrip cur]) rest (line ++ "\n") (tok line)
    else
      chunkLoop tok chunkSize acc rest (cur ++ line ++ "\n") (cnt + tok line)

/-- The `content_chunks` list computed by `handle_file_chunks` from the lines
of the document (`file_content.splitlines()` is the external input boundary:
the document is given by its line list). -/
def content_chunks (tok : String → Nat) (chunkSize : Nat) (lines : List String) : List String :=
  chunkLoop tok chunkSize [] lines "" 0

/-- The analysis concatenation loop of `handle_file_chunks`
(utils.py lines 158-161), with the per-chunk analysis call a parameter. -/
def analysisReport (analyze : String → String) : List String → Nat → String
  | [], _ => ""
  | c :: rest, i =>
    "\n-- Analysis for Chunk " ++ toString (i + 1) ++ " --\n" ++ analyze c
      ++ analysisReport analyze rest (i + 1)

/-- Model of `handle_file_chunks` (utils.py lines 134-163): the chunk list and the
combined analysis report. -/
def handle_file_chunks (tok : String → Nat) (chunkSize : Nat)
    (analyze : String → String) (lines : List String) : List String × String :=
  let chunks := content_chunks tok chunkSize lines
  (chunks, analysisReport analyze chunks 0)

/-- The string `current_chunk`, rebuilt from the list of lines accumulated
into it: each line is appended as `line + "\n"` (utils.py line 151). -/
def renderChunk (cur : List String) : String :=
  cur.foldl (fun a l => a ++ l ++ "\n") ""

/-- The counter `current_token_count` as a function of the accumulated lines. -/
def linesTok (tok : String → Nat) (cur : List String) : Nat := (cur.map tok).sum

/-- The same loop as `chunkLoop`, instrumented to remember, for each emitted
chunk, the list of document lines accumulated into it (its underlying lines)
instead of the stripped string. -/
def chunkGroups (tok : String → Nat) (chunkSize : Nat) :
    List (List String) → List String → List String → List (List String)
  | acc, [], cur => if pyStrip (renderChunk cur) ≠ "" then acc ++ [cur] else acc
  | acc, line :: rest, cur =>
    if linesTok tok cur + tok line > chunkSize then
      chunkGroups tok chunkSize (acc ++ [cur]) rest [line]
    else
      chunkGroups tok chunkSize acc rest (cur ++ [line])

/-- Outcome of one iteration of the `try` block of `analyze_chunk_with_llama`
(the POST plus the parse `llama_response['choices'][0]['message']['content']`):
* `success body`: the parse succeeds and `body` is returned;
* `caughtError`: an exception listed in the `except` clause at utils.py line
  183 is raised — `requests.exceptions.RequestException` (connection error,
  timeout, HTTP error via `raise_for_status`) or `KeyError` (a `'choices'`,
  `'message'` or `'content'` key missing);
* `uncaughtError`: an exception NOT listed there is raised — e.g. `IndexError`
  when the response is `{"choices": []}`, or `TypeError` when `'choices'` has
  the wrong shape — and propagates out of the function. -/
inductive ClientOutcome where
  | success (body : String)
  | caughtError
  | uncaughtError
  deriving DecidableEq, Repr

/-- The retry loop of `analyze_chunk_with_llama` (utils.py lines 176-187).
`client attempt` is the outcome of the POST + parse issued with `attempt`
retries already used.  The recursion argument is
`remaining = retries - attempt`.  The result pairs what reaches the caller —
`Except.ok v` when the function returns the value `v` (`v = none` is
Python's implicit `None` when the `while` guard fails at entry, i.e.
`retries = 0`), `Except.error ()` when an uncaught exception propagates past
the caller boundary — with the number of requests issued. -/
def analyzeLoop (client : Nat → ClientOutcome) (retries : Nat) :
    Nat → Except Unit (Option String) × Nat
  | 0 => (Except.ok none, 0)
  | remaining + 1 =>
    match client (retries - (remaining + 1)) with
    | ClientOutcome.success body => (Except.ok (some body), 1)
    | ClientOutcome.uncaughtError => (Except.error (), 1)
    | ClientOutcome.caughtError =>
      if remaining = 0 then
        (Except.ok
          (some "Unable to process your request at this time. Please try again later."), 1)
      else
        let r := analyzeLoop client retries remaining
        (r.1, r.2 + 1)

/-- Model of `analyze_chunk_with_llama` (utils.py lines 165-187): run the retry loop
from `attempt = 0`.  The payload built from the session history and the chunk
only feeds the external POST, so it does not appear in the value model. -/
def analyze_chunk_with_llama (client : Nat → ClientOutcome) (retries : Nat) :
    Except Unit (Option String) × Nat :=
  analyzeLoop client retries retries

/-- A heap of Python list objects: a reference is an index into the store. -/
abbrev Store := List (List Message)

/-- Dereference a list object. -/
def readRef (st : Store) (r : Nat) : List Message := st.getD r []

/-- In-place mutation of a list object (`pop(0)`, `insert`, `append`). -/
def writeRef (st : Store) (r : Nat) (v : List Message) : Store := st.set r v

/-- Creation of a fresh list object (`+`, `.copy()`). -/
def allocRef (st : Store) (v : List Message) : Store × Nat := (st ++ [v], st.length)

/-- The function `manage_token_limits` again, at the level of Python list objects, to state
what the function mutates.  `conversation_history` is a reference into the
store; `+` and `.copy()` allocate fresh lists (lines 93, 95, 114) and all
`pop`/`insert`/`append` calls write through `temp_history`'s own reference.
Returns the final store, the reference to the returned list, and the total. -/
def manage_token_limits_heap (tok : String → Nat) (summ : List Message → Message)
    (maxTokens replyTokens : Nat) :
    Nat → Store → Nat → Option String → Option (Store × Nat × Nat)
  | 0, _, _, _ => none
  | fuel + 1, st, histRef, new_message =>
    let ceiling := maxTokens - replyTokens
    let newText := new_message.getD ""
    let hist := readRef st histRef
    let a1 :=
      if truthyMsg new_message then allocRef st (hist ++ [userMessage newText])
      else allocRef st hist
    let st1 := a1.1
    let tempRef := a1.2
    let total0 := totalTokens tok (readRef st1 tempRef)
    if ceiling ≤ total0 then
      let ev := evictLoop tok ceiling [] (readRef st1 tempRef)
      let st2 := writeRef st1 tempRef ev.2
      if ev.1 ≠ [] then
        let st3 := writeRef st2 tempRef (summ ev.1 :: ev.2)
        let total1 := totalTokens tok (readRef st3 tempRef)
        if ceiling ≤ total1 then
          manage_token_limits_heap tok summ maxTokens replyTokens fuel st3 tempRef none
        else
          if truthyMsg new_message then
            some (writeRef st3 tempRef (readRef st3 tempRef ++ [userMessage newText]),
              tempRef, total1 + tok newText)
          else
            some (st3, tempRef, total1)
      else
        if truthyMsg new_message then
          some (writeRef st2 tempRef (readRef st2 tempRef ++ [userMessage newText]),
            tempRef, total0 + tok newText)
        else
          some (st2, tempRef, total0)
    else
      let a2 := allocRef st1 (readRef st1 histRef)
      let st2 := a2.1
      let tempRef2 := a2.2
      if truthyMsg new_message then
        some (writeRef st2 tempRef2 (readRef st2 tempRef2 ++ [userMessage newText]),
          tempRef2, total0 + tok newText)
      else
        some (st2, tempRef2, total0)

/-- Whatever the tokenizer, the ceiling and the starting accumulator, the
eviction loop only ever takes messages off the front: its result is the
evicted prefix appended to the accumulator together with the untouched
suffix of the transcript. -/
theorem evictLoop_suffix (tok : String → Nat) (ceiling : Nat) :
    ∀ (l acc : List Message),
      ∃ k, evictLoop tok ceiling acc l = (acc ++ l.take k, l.drop k) := by
  intro l
  induction l with
  | nil => intro acc; exact ⟨0, by simp [evictLoop]⟩
  | cons h t ih =>
    intro acc
    by_cases hc : ceiling ≤ totalTokens tok (h :: t) ∧ t ≠ []
    · obtain ⟨k, hk⟩ := ih (acc ++ [h])
      refine ⟨k + 1, ?_⟩
      simp only [evictLoop, if_pos hc, hk, List.take_succ_cons, List.drop_succ_cons]
      simp
    · exact ⟨0, by simp [evictLoop, if_neg hc]⟩

/-- C1.  The invariant fails on the code: with `max_tokens = 100`,
`reply_reserve_tokens = 20` and a transcript holding a single 200-token
message, `manage_token_limits` returns successfully (it neither evicts nor
fails), yet the returned transcript's token total, 200, exceeds the ceiling
`max_tokens - reply_reserve_tokens = 80`.  There is no guard for a single
message exceeding the ceiling. -/
theorem budget_invariant_violated_on_oversized_message :
    manage_token_limits testTok okSumm 100 20 5 [⟨"user", "M200"⟩] none
      = some ([⟨"user", "M200"⟩], 200)
    ∧ 100 - 20 < totalTokens testTok [⟨"user", "M200"⟩] := by decide

/-- C2.  On a one-message transcript whose token count (100) exceeds
`max_tokens - reply_reserve_tokens = 40`, `manage_token_limits` does not
fail with any `MessageTooLarge` condition: it terminates and returns the
over-budget transcript unchanged (the `while` guard `len(temp_history) > 1`
is false immediately, nothing is summarized, and the function falls through
to the normal return). -/
theorem oversized_single_message_returned_over_budget :
    manage_token_limits testTok okSumm 50 10 5 [⟨"user", "M100"⟩] none
      = some ([⟨"user", "M100"⟩], 100)
    ∧ 50 - 10 < 100 := by decide

/-- C3.  The summarization round does not strictly shrink the transcript:
on the transcript `[S, C]` (600 tokens each, ceiling 1000) with a Completion
Client whose summaries cost 600 tokens, one round evicts only `S`,
re-inserts a 600-token summary — the transcript handed to the recursive call
again has length 2 — and the recursion never terminates (the fuel-indexed
model diverges for every amount of fuel). -/
theorem summarization_recursion_nonterminating :
    (∀ fuel : Nat,
      manage_token_limits testTok bigSumm 1000 0 fuel
        [⟨"system", "S600"⟩, ⟨"user", "C600"⟩] none = none)
    ∧ (bigSumm [⟨"system", "S600"⟩]
        :: (evictLoop testTok 1000 [] [⟨"system", "S600"⟩, ⟨"user", "C600"⟩]).2).length
      = [(⟨"system", "S600"⟩ : Message), ⟨"user", "C600"⟩].length := by
  refine ⟨?_, by decide⟩
  intro fuel
  induction fuel with
  | zero => rfl
  | succ n ih => exact ih

/-- C4.  The returned pair is not consistent: with an empty history and new
message `"hi"` (1 token, well under budget), the code counts the new message
once at line 97 and again at line 118, returning total 2 for a returned
transcript whose token sum is 1. -/
theorem returned_total_overcounts_new_message :
    manage_token_limits testTok okSumm 100 0 5 [] (some "hi")
      = some ([userMessage "hi"], 2)
    ∧ totalTokens testTok [userMessage "hi"] = 1
    ∧ (2 : Nat) ≠ 1 := by decide

/-- C5.  The new message is not appended exactly once: on the over-budget
path it is appended at line 93 (so it participates in eviction) and appended
again at line 117 after summarization, so the returned transcript holds two
copies.  History `[A, B]` at 60 tokens each, new message `"u"`, ceiling
100: the result is `[summary, B, u, u]`. -/
theorem new_message_appended_twice :
    manage_token_limits testTok okSumm 100 0 5
      [⟨"user", "A60"⟩, ⟨"user", "B60"⟩] (some "u")
      = some ([⟨"system", "Summary: ok"⟩, ⟨"user", "B60"⟩,
          userMessage "u", userMessage "u"], 67)
    ∧ ([⟨"system", "Summary: ok"⟩, ⟨"user", "B60"⟩,
          userMessage "u", userMessage "u"] : List Message).count (userMessage "u") = 2 := by
  decide

/-- C6 counterexample.  The spec's concrete example is false on the code:
for `[A, B, C]` at 50 tokens each and ceiling effectively 80, evicting `A`
leaves `[B, C]` at 100 tokens, still over the ceiling, so the loop evicts
`B` as well; the result keeps only `C` (plus the inserted summary), and `B`
does not survive. -/
theorem eviction_spec_example_false :
    manage_token_limits testTok okSumm 80 0 5
      [⟨"user", "A50"⟩, ⟨"user", "B50"⟩, ⟨"user", "C50"⟩] none
      = some ([⟨"system", "Summary: ok"⟩, ⟨"user", "C50"⟩], 55)
    ∧ (⟨"user", "B50"⟩ : Message)
        ∉ [(⟨"system", "Summary: ok"⟩ : Message), ⟨"user", "C50"⟩] := by decide

/-- C6 amended.  Eviction is FIFO and oldest-first: the eviction loop always
removes a prefix of the transcript, returning the evicted prefix and the
surviving suffix in order; in the `[A, B, C]` / 50-50-50 / ceiling-80
example both `A` and `B` are evicted (oldest first) and the surviving
original messages are `[C]`, preceded by the synthetic summary. -/
theorem eviction_fifo_front_amended :
    (∀ (tok : String → Nat) (ceiling : Nat) (acc l : List Message),
      ∃ k, evictLoop tok ceiling acc l = (acc ++ l.take k, l.drop k))
    ∧ manage_token_limits testTok okSumm 80 0 5
        [⟨"user", "A50"⟩, ⟨"user", "B50"⟩, ⟨"user", "C50"⟩] none
        = some ([⟨"system", "Summary: ok"⟩, ⟨"user", "C50"⟩], 55) :=
  ⟨fun tok ceiling acc l => evictLoop_suffix tok ceiling l acc, by decide⟩

/-- Appending one line to the accumulated chunk appends `line + "\n"` to its
rendered string. -/
theorem renderChunk_append (cur : List String) (l : String) :
    renderChunk (cur ++ [l]) = renderChunk cur ++ l ++ "\n" := by
  simp [renderChunk, List.foldl_append]

/-- A one-line chunk renders as `line + "\n"`. -/
theorem renderChunk_singleton (l : String) : renderChunk [l] = l ++ "\n" := by
  apply String.ext
  simp [renderChunk, String.data_append]

/-- The running token count is the token sum of the accumulated lines. -/
theorem linesTok_append (tok : String → Nat) (cur : List String) (l : String) :
    linesTok tok (cur ++ [l]) = linesTok tok cur + tok l := by
  simp [linesTok]

/-- The characters of a rendered chunk are exactly the characters of its
lines, each followed by a newline. -/
theorem renderChunk_foldl_data (cur : List String) :
    ∀ a : String, (cur.foldl (fun a l => a ++ l ++ "\n") a).data
      = a.data ++ (cur.map (fun l => l.data ++ ['\n'])).flatten := by
  induction cur with
  | nil => intro a; simp
  | cons x xs ih =>
    intro a
    simp [List.foldl_cons, ih, String.data_append]

theorem renderChunk_data (cur : List String) :
    (renderChunk cur).data = (cur.map (fun l => l.data ++ ['\n'])).flatten := by
  simpa [renderChunk] using renderChunk_foldl_data cur ""

/-- Python's `strip` yields the empty string exactly on all-whitespace
strings. -/
theorem pyStrip_eq_empty_iff (s : String) :
    pyStrip s = "" ↔ ∀ c ∈ s.data, isPySpace c := by
  constructor
  · intro h c hc
    have h1 : ((s.data.dropWhile isPySpace).reverse.dropWhile isPySpace).reverse = [] := by
      simpa [pyStrip] using congrArg String.data h
    rw [List.reverse_eq_nil_iff] at h1
    have h2 : ∀ x ∈ (s.data.dropWhile isPySpace).reverse, isPySpace x :=
      List.dropWhile_eq_nil_iff.mp h1
    have h3 : ∀ x ∈ s.data.dropWhile isPySpace, isPySpace x := fun x hx =>
      h2 x (List.mem_reverse.mpr hx)
    have hsplit : s.data.takeWhile isPySpace ++ s.data.dropWhile isPySpace = s.data :=
      List.takeWhile_append_dropWhile isPySpace s.data
    rcases List.mem_append.mp (by rw [hsplit]; exact hc) with h4 | h4
    · exact List.mem_takeWhile_imp h4
    · exact h3 c h4
  · intro h
    have h1 : s.data.dropWhile isPySpace = [] := List.dropWhile_eq_nil_iff.mpr h
    simp [pyStrip, h1]

/-- A chunk holding at least one line with non-whitespace content does not
strip to the empty string (so the final-chunk guard keeps it). -/
theorem pyStrip_renderChunk_ne_empty (cur : List String) (l : String)
    (hl : l ∈ cur) (h : pyStrip l ≠ "") : pyStrip (renderChunk cur) ≠ "" := by
  intro hcontra
  apply h
  rw [pyStrip_eq_empty_iff] at hcontra ⊢
  intro c hc
  apply hcontra
  rw [renderChunk_data]
  exact List.mem_flatten.mpr
    ⟨l.data ++ ['\n'], List.mem_map_of_mem _ hl, List.mem_append_left _ hc⟩

/-- The string-building loop and its instrumented version run in lockstep:
the emitted chunk strings are exactly the stripped renderings of the
underlying line groups. -/
theorem chunkLoop_eq_chunkGroups (tok : String → Nat) (chunkSize : Nat) :
    ∀ (rest : List String) (accG : List (List String)) (cur : List String),
      chunkLoop tok chunkSize (accG.map (fun g => pyStrip (renderChunk g))) rest
          (renderChunk cur) (linesTok tok cur)
        = (chunkGroups tok chunkSize accG rest cur).map
            (fun g => pyStrip (renderChunk g)) := by
  intro rest
  induction rest with
  | nil =>
    intro accG cur
    simp only [chunkLoop, chunkGroups]
    by_cases hc : pyStrip (renderChunk cur) ≠ "" <;> simp [hc]
  | cons line rest ih =>
    intro accG cur
    simp only [chunkLoop, chunkGroups]
    by_cases hc : linesTok tok cur + tok line > chunkSize
    · rw [if_pos hc, if_pos hc]
      have h2 := ih (accG ++ [cur]) [line]
      rw [renderChunk_singleton] at h2
      have h3 : linesTok tok [line] = tok line := by simp [linesTok]
      rw [h3] at h2
      simpa using h2
    · rw [if_neg hc, if_neg hc]
      have h2 := ih accG (cur ++ [line])
      rw [renderChunk_append, linesTok_append] at h2
      exact h2

/-- Concatenating the underlying line groups recovers the whole document,
provided the final accumulated chunk does not strip to nothing (stated via:
every line that can be the document's last one has non-whitespace content).
All earlier groups are emitted unconditionally by the overflow branch. -/
theorem chunkGroups_flatten (tok : String → Nat) (chunkSize : Nat) :
    ∀ (rest : List String) (accG : List (List String)) (cur : List String),
      (∀ l, (cur ++ rest).getLast? = some l → pyStrip l ≠ "") →
      (chunkGroups tok chunkSize accG rest cur).flatten
        = accG.flatten ++ cur ++ rest := by
  intro rest
  induction rest with
  | nil =>
    intro accG cur h
    simp only [chunkGroups]
    by_cases hcur : cur = []
    · subst hcur
      have hempty : pyStrip (renderChunk []) = "" := by rfl
      simp [hempty]
    · have hlast : pyStrip (cur.getLast hcur) ≠ "" := by
        apply h
        rw [List.append_nil]
        exact List.getLast?_eq_getLast_of_ne_nil hcur
      have hne : pyStrip (renderChunk cur) ≠ "" :=
        pyStrip_renderChunk_ne_empty cur _ (List.getLast_mem hcur) hlast
      rw [if_pos hne]
      simp
  | cons line rest ih =>
    intro accG cur h
    simp only [chunkGroups]
    by_cases hc : linesTok tok cur + tok line > chunkSize
    · rw [if_pos hc]
      have h2 : ∀ l, ([line] ++ rest).getLast? = some l → pyStrip l ≠ "" := by
        intro l hl
        apply h
        rw [List.getLast?_append_of_ne_nil cur (show line :: rest ≠ [] by simp)]
        exact hl
      have h3 := ih (accG ++ [cur]) [line] h2
      rw [h3]
      simp
    · rw [if_neg hc]
      have h2 : ∀ l, ((cur ++ [line]) ++ rest).getLast? = some l → pyStrip l ≠ "" := by
        intro l hl
        apply h
        rw [show cur ++ line :: rest = (cur ++ [line]) ++ rest by simp]
        exact hl
      have h3 := ih accG (cur ++ [line]) h2
      rw [h3]
      simp

/-- C7 counterexample.  The round-trip fails on the code: for the document
whose single line is `" "`, the only (final) chunk strips to the empty
string, the `if current_chunk.strip():` guard drops it, and
`handle_file_chunks` emits no chunk at all — the line `" "` belongs to no
emitted chunk, so concatenating the chunks' underlying lines yields `[]`,
not the original document. -/
theorem chunker_drops_whitespace_only_document :
    content_chunks (fun s => s.length) 1000 [" "] = []
    ∧ chunkGroups (fun s => s.length) 1000 [] [" "] [] = []
    ∧ ([] : List (List String)).flatten ≠ [" "] := by decide

/-- C7 amended.  The round-trip holds whenever the document's last line (if
any) has non-whitespace content: the underlying line groups of the emitted
chunks concatenate to the original lines in order, with no loss and no
duplication, and the emitted chunk strings are exactly the stripped
renderings of those groups.  (Only an all-whitespace trailing chunk is ever
dropped, by the final `if current_chunk.strip():` guard.) -/
theorem chunker_round_trip_amended (tok : String → Nat) (chunkSize : Nat)
    (lines : List String) (h : pyStrip (lines.getLast?.getD "x") ≠ "") :
    (chunkGroups tok chunkSize [] lines []).flatten = lines
    ∧ content_chunks tok chunkSize lines
        = (chunkGroups tok chunkSize [] lines []).map
            (fun g => pyStrip (renderChunk g)) := by
  constructor
  · have h2 : ∀ l, (([] : List String) ++ lines).getLast? = some l → pyStrip l ≠ "" := by
      intro l hl
      rw [List.nil_append] at hl
      rw [hl] at h
      simpa using h
    simpa using chunkGroups_flatten tok chunkSize lines [] [] h2
  · simpa [content_chunks] using chunkLoop_eq_chunkGroups tok chunkSize lines [] []

/-- C7 witness: the amended round-trip at the spec's own boundary example
(`chunk_size_tokens = 10`, lines of 4 tokens each). -/
theorem chunker_round_trip_amended_check :
    (chunkGroups (fun s => s.length) 10 [] ["aaaa", "bbbb", "cccc"] []).flatten
        = ["aaaa", "bbbb", "cccc"]
    ∧ content_chunks (fun s => s.length) 10 ["aaaa", "bbbb", "cccc"]
        = (chunkGroups (fun s => s.length) 10 [] ["aaaa", "bbbb", "cccc"] []).map
            (fun g => pyStrip (renderChunk g)) :=
  chunker_round_trip_amended (fun s => s.length) 10 ["aaaa", "bbbb", "cccc"] (by decide)

/-- C8.  The claim fails on the code for one family of failing clients: a
Completion Client whose every call yields a malformed success response such
as `{"choices": []}` raises `IndexError` at the parse, which the `except
(requests.exceptions.RequestException, KeyError)` clause does not catch, so
the exception propagates past the caller boundary on the very first attempt
(1 request, no terminal failure string) instead of the claimed 3 attempts.
For a client whose every call fails with a caught exception (connection
error, HTTP error, missing key), the code does behave as claimed: exactly 3
requests, then the terminal failure string returned as a value. -/
theorem malformed_response_escapes_retry_loop :
    analyze_chunk_with_llama (fun _ => ClientOutcome.uncaughtError) 3
      = (Except.error (), 1)
    ∧ analyze_chunk_with_llama (fun _ => ClientOutcome.caughtError) 3
      = (Except.ok
          (some "Unable to process your request at this time. Please try again later."), 3) :=
  ⟨rfl, rfl⟩

/-- Allocating fresh lists leaves every existing list object unchanged. -/
theorem readRef_append (st st2 : Store) (q : Nat) (h : q < st.length) :
    readRef (st ++ st2) q = readRef st q :=
  List.getD_append st st2 [] q h

/-- Writing through one reference leaves every other list object unchanged. -/
theorem readRef_set_ne (st : Store) (r : Nat) (v : List Message) (q : Nat)
    (h : r ≠ q) : readRef (writeRef st r v) q = readRef st q := by
  simp [readRef, writeRef, List.getD_eq_getElem?_getD, List.getElem?_set_ne h]

/-- C10.  `manage_token_limits` never mutates the caller's
`conversation_history` object: every list the function writes through is one
it allocated itself (`+` at line 93, `.copy()` at lines 95 and 114), so
whatever list object the caller passed in — indeed every pre-existing list
object — holds exactly the same messages after the call as before it. -/
theorem caller_history_not_mutated (tok : String → Nat)
    (summ : List Message → Message) (maxTokens replyTokens : Nat) :
    ∀ (fuel : Nat) (st : Store) (histRef : Nat) (newMsg : Option String)
      (out : Store × Nat × Nat),
      manage_token_limits_heap tok summ maxTokens replyTokens fuel st histRef newMsg
        = some out →
      ∀ q, q < st.length → readRef out.1 q = readRef st q := by
  intro fuel
  induction fuel with
  | zero =>
    intro st histRef newMsg out h
    exact absurd h (by simp [manage_token_limits_heap])
  | succ n ih =>
    intro st histRef newMsg out h q hq
    have hqne : st.length ≠ q := by omega
    simp only [manage_token_limits_heap, allocRef] at h
    cases hm : truthyMsg newMsg <;> simp only [hm] at h <;>
      simp only [Bool.false_eq_true, if_false, if_true] at h <;>
      split at h <;> (try split at h) <;> (try split at h)
    all_goals first
      | (cases h
         simp only
         simp [readRef_set_ne _ _ _ _ hqne, readRef_append _ _ _ hq,
           readRef_set_ne _ _ _ _ (show st.length + 1 ≠ q by omega)])
      | (refine (ih _ _ _ _ h q (by simp [writeRef]; omega)).trans ?_
         simp [readRef_set_ne _ _ _ _ hqne, readRef_append _ _ _ hq])

/-- C10 witness: a concrete run (one-message history, no new message) in
which the returned store has grown by two fresh copies while the caller's
original list object at reference 0 is untouched. -/
theorem caller_history_not_mutated_check :
    manage_token_limits_heap testTok okSumm 100 0 5 [[userMessage "hi"]] 0 none
      = some ([[userMessage "hi"], [userMessage "hi"], [userMessage "hi"]], 2, 1)
    ∧ readRef [[userMessage "hi"], [userMessage "hi"], [userMessage "hi"]] 0
        = readRef [[userMessage "hi"]] 0 :=
  ⟨by decide,
    caller_history_not_mutated testTok okSumm 100 0 5 [[userMessage "hi"]] 0 none
      ([[userMessage "hi"], [userMessage "hi"], [userMessage "hi"]], 2, 1)
      (by decide) 0 (by decide)⟩

/-- C9.  A summarization failure is swallowed into a usable-but-wrong state:
with history `[A, B]` (80 + 60 tokens, ceiling 100) and a failing Completion
Client, `summarize_messages` catches the exception and returns the fixed
fallback message; `manage_token_limits` inserts it and returns success.  The
returned transcript differs from the input, `A`'s content is silently gone,
and no error is reported to the caller. -/
theorem summarization_failure_swallowed :
    manage_token_limits testTok (summarize_messages none) 100 0 5
      [⟨"user", "A80"⟩, ⟨"user", "B60"⟩] none
      = some ([⟨"system", "Summary not available due to an error."⟩, ⟨"user", "B60"⟩], 65)
    ∧ ([⟨"system", "Summary not available due to an error."⟩, ⟨"user", "B60"⟩] : List Message)
        ≠ [⟨"user", "A80"⟩, ⟨"user", "B60"⟩]
    ∧ (⟨"user", "A80"⟩ : Message)
        ∉ [(⟨"system", "Summary not available due to an error."⟩ : Message),
            ⟨"user", "B60"⟩] := by decide
